import Mathlib

/-!
Shallow embedding of `src/powa.c` (PoWA background worker) and proofs about
its two components: the snapshot scheduler (`powa_main`, `powa_sighup`,
`die_on_too_small_frequency`) and the statistics extractor
(`powa_stat_common`, wrapped by `powa_stat_user_functions` and
`powa_stat_all_rel`).

Conventions of the embedding:
* PostgreSQL `Oid` is modelled as `Nat`; `PgStat_Counter` (int64) and
  `TimestampTz` as `Int`; the `double` values produced by `Float8GetDatum`
  as `Rat` (the C code computes `((double) ticks) / 1000.0`, modelled as
  exact division by 1000).
* A `HTAB *` field that may be a NULL pointer is modelled as an `Option`
  of the list of its entries, in the (unspecified) order a hash sequential
  scan yields them.
* `elog(..., exit(1))` / `ereport(ERROR, ...)` control flow is modelled by
  `Option Nat` exit codes and by `Except` results; a raised backend error
  performs a non-local jump, so any code after the raise point simply does
  not run (modelled by short-circuiting).
-/

namespace Powa

/-- Per-function statistics entry (`PgStat_StatFuncEntry`), the fields read
by `powa_stat_common` in the `POWA_STAT_FUNCTION` branch. -/
structure PgStat_StatFuncEntry where
  functionid : Nat
  f_numcalls : Int
  f_total_time : Int
  f_self_time : Int
  deriving Repr, DecidableEq

/-- Per-table statistics entry (`PgStat_StatTabEntry`), the fields read by
`powa_stat_common` in the `POWA_STAT_TABLE` branch. -/
structure PgStat_StatTabEntry where
  tableid : Nat
  numscans : Int
  tuples_returned : Int
  tuples_fetched : Int
  tuples_inserted : Int
  tuples_updated : Int
  tuples_deleted : Int
  tuples_hot_updated : Int
  n_live_tuples : Int
  n_dead_tuples : Int
  changes_since_analyze : Int
  blocks_fetched : Int
  blocks_hit : Int
  vacuum_timestamp : Int
  vacuum_count : Int
  autovac_vacuum_timestamp : Int
  autovac_vacuum_count : Int
  analyze_timestamp : Int
  analyze_count : Int
  autovac_analyze_timestamp : Int
  autovac_analyze_count : Int
  deriving Repr, DecidableEq

/-- Per-database statistics entry (`PgStat_StatDBEntry`): the two nested
hash tables, each a possibly-NULL `HTAB *`. -/
structure PgStat_StatDBEntry where
  tables : Option (List PgStat_StatTabEntry)
  functions : Option (List PgStat_StatFuncEntry)
  deriving Repr, DecidableEq

/-- The `PowaStatKind` enum selecting which SRF is being served. -/
inductive PowaStatKind where
  | function
  | table
  deriving Repr, DecidableEq

/-- A single SQL value placed in an output tuple by the row-building code. -/
inductive Datum where
  | oid (v : Nat)
  | int64 (v : Int)
  | float8 (v : Rat)
  | timestamptz (v : Int)
  deriving Repr, DecidableEq

/-- One output tuple: per column, `none` models `nulls[i] = true` and
`some d` models `values[i] = d`. -/
abbrev OutputRow := List (Option Datum)

/-- Number of columns of the function-stats SRF (`POWA_STAT_FUNC_COLS`). -/
def POWA_STAT_FUNC_COLS : Nat := 4

/-- Number of columns of the relation-stats SRF (`POWA_STAT_TAB_COLS`). -/
def POWA_STAT_TAB_COLS : Nat := 21

/-- Row built for one `PgStat_StatFuncEntry` (src/powa.c lines 370-384):
oid, call count, and the two timings converted from sub-millisecond ticks
to milliseconds by dividing by 1000 into a float8. -/
def funcRow (f : PgStat_StatFuncEntry) : OutputRow :=
  [ some (.oid f.functionid),
    some (.int64 f.f_numcalls),
    some (.float8 ((f.f_total_time : Rat) / 1000)),
    some (.float8 ((f.f_self_time : Rat) / 1000)) ]

/-- Row built for one `PgStat_StatTabEntry` (src/powa.c lines 395-451).
Column 11 is `blocks_fetched - blocks_hit`; the four timestamp columns are
null exactly when the stored timestamp is the 0 sentinel. -/
def tabRow (t : PgStat_StatTabEntry) : OutputRow :=
  [ some (.oid t.tableid),
    some (.int64 t.numscans),
    some (.int64 t.tuples_returned),
    some (.int64 t.tuples_fetched),
    some (.int64 t.tuples_inserted),
    some (.int64 t.tuples_updated),
    some (.int64 t.tuples_deleted),
    some (.int64 t.tuples_hot_updated),
    some (.int64 t.n_live_tuples),
    some (.int64 t.n_dead_tuples),
    some (.int64 t.changes_since_analyze),
    some (.int64 (t.blocks_fetched - t.blocks_hit)),
    some (.int64 t.blocks_hit),
    (if t.vacuum_timestamp = 0 then none
     else some (.timestamptz t.vacuum_timestamp)),
    some (.int64 t.vacuum_count),
    (if t.autovac_vacuum_timestamp = 0 then none
     else some (.timestamptz t.autovac_vacuum_timestamp)),
    some (.int64 t.autovac_vacuum_count),
    (if t.analyze_timestamp = 0 then none
     else some (.timestamptz t.analyze_timestamp)),
    some (.int64 t.analyze_count),
    (if t.autovac_analyze_timestamp = 0 then none
     else some (.timestamptz t.autovac_analyze_timestamp)),
    some (.int64 t.autovac_analyze_count) ]

/-- Session-global backend state touched by `powa_stat_common`:
`MyDatabaseId` and the backend-local pgstat snapshot cache
(`none` after `pgstat_clear_snapshot()`, `some db` when a snapshot fetched
while the session was logically attached to `db` is cached). -/
structure BackendState where
  myDatabaseId : Nat
  statsCache : Option Nat
  deriving Repr, DecidableEq

/-- The caller-contract facts `powa_stat_common` checks before doing any
work (src/powa.c lines 291-307): `rsinfo` is a valid `ReturnSetInfo`,
`SFRM_Materialize` is allowed, and the declared result type is composite. -/
structure FuncCallContext where
  hasReturnSetInfo : Bool
  allowsMaterialize : Bool
  resultTypeComposite : Bool
  deriving Repr, DecidableEq

/-- The errors `powa_stat_common` can raise. -/
inductive PowaError where
  | cannotAcceptSet
  | materializeNotAllowed
  | returnTypeNotRow
  | fetchFailed
  deriving Repr, DecidableEq

/-- A statistics store: `pgstat_fetch_stat_dbentry dbid` either raises a
backend error (`Except.error`) or returns the entry pointer
(`none` = NULL, no entry recorded for that database). -/
abbrev StatsStore := Nat → Except Unit (Option PgStat_StatDBEntry)

/-- `powa_stat_common` (src/powa.c lines 279-469), with the session-global
state threaded explicitly.  On error the `BackendState` carried by the
`Except.error` is the state at the moment the error is raised (a backend
error is a non-local jump, so no later statement runs).

Source control flow, in order:
1. contract checks (lines 292-307) — before any pgstat state is touched;
2. `pgstat_clear_snapshot()` (line 350);
3. save `MyDatabaseId`, override it with `dbid` (lines 352-353);
4. `pgstat_fetch_stat_dbentry(dbid)` (line 355) — populates the snapshot
   cache for `dbid` when it succeeds;
5. restore `MyDatabaseId` (line 357);
6. if the entry and its `functions` hash are non-NULL, emit one row per
   entry of the collection selected by `kind` (lines 359-456); the source
   dereferences `dbentry->tables` without a NULL test in the table branch
   (the host creates both hashes together, so `functions != NULL` implies
   `tables != NULL` there), modelled as iterating the empty list;
7. `pgstat_clear_snapshot()` again (line 462). -/
def powa_stat_common (ctx : FuncCallContext) (store : StatsStore)
    (dbid : Nat) (kind : PowaStatKind) (s : BackendState) :
    Except (PowaError × BackendState) (List OutputRow × BackendState) :=
  if ¬ ctx.hasReturnSetInfo then
    .error (.cannotAcceptSet, s)
  else if ¬ ctx.allowsMaterialize then
    .error (.materializeNotAllowed, s)
  else if ¬ ctx.resultTypeComposite then
    .error (.returnTypeNotRow, s)
  else
    let s1 : BackendState := { s with statsCache := none }
    let backend_dbid : Nat := s1.myDatabaseId
    let s2 : BackendState := { s1 with myDatabaseId := dbid }
    match store dbid with
    | .error _ => .error (.fetchFailed, s2)
    | .ok dbentry =>
      let s3 : BackendState :=
        { myDatabaseId := backend_dbid, statsCache := some dbid }
      let rows : List OutputRow :=
        match dbentry with
        | none => []
        | some e =>
          match e.functions with
          | none => []
          | some fs =>
            match kind with
            | .function => fs.map funcRow
            | .table => (e.tables.getD []).map tabRow
      let s4 : BackendState := { s3 with statsCache := none }
      .ok (rows, s4)

/-- `powa_stat_user_functions` (src/powa.c lines 267-271). -/
def powa_stat_user_functions (ctx : FuncCallContext) (store : StatsStore)
    (dbid : Nat) (s : BackendState) :
    Except (PowaError × BackendState) (List OutputRow × BackendState) :=
  powa_stat_common ctx store dbid .function s

/-- `powa_stat_all_rel` (src/powa.c lines 273-277). -/
def powa_stat_all_rel (ctx : FuncCallContext) (store : StatsStore)
    (dbid : Nat) (s : BackendState) :
    Except (PowaError × BackendState) (List OutputRow × BackendState) :=
  powa_stat_common ctx store dbid .table s

/-! ### Scheduler (`powa_main`, `powa_sighup`) -/

/-- `min_powa_frequency` (src/powa.c line 68). -/
def min_powa_frequency : Int := 5000

/-- `die_on_too_small_frequency` (src/powa.c lines 74-82): `some 1` models
`exit(1)` (after an `elog(LOG, ...)`), `none` models returning normally. -/
def die_on_too_small_frequency (powa_frequency : Int) : Option Nat :=
  if powa_frequency > 0 ∧ powa_frequency < min_powa_frequency then some 1
  else none

/-- The exit decision of `powa_main` before entering the loop
(src/powa.c lines 156-172): first `die_on_too_small_frequency()`, then the
`powa_frequency < 0` deactivation check; `none` means the worker connects
and enters the main loop. -/
def powa_startup_exit (powa_frequency : Int) : Option Nat :=
  match die_on_too_small_frequency powa_frequency with
  | some c => some c
  | none => if powa_frequency < 0 then some 1 else none

/-- The check at the top of each main-loop iteration
(src/powa.c lines 207-211): `exit(1)` when a reload made the frequency
negative, otherwise continue with the tick. -/
def powa_loop_check (powa_frequency : Int) : Option Nat :=
  if powa_frequency < 0 then some 1 else none

/-- `time_to_wait = powa_frequency - INSTR_TIME_GET_MILLISEC(end)`
(src/powa.c line 238), where `end` holds the elapsed tick duration. -/
def time_to_wait (powa_frequency elapsed_ms : Int) : Int :=
  powa_frequency - elapsed_ms

/-- The wait performed at the bottom of a tick (src/powa.c lines 240-256):
`WaitLatch` with timeout `time_to_wait` is reached only when
`time_to_wait > 0`; otherwise the loop starts the next tick immediately. -/
def sleep_duration (powa_frequency elapsed_ms : Int) : Option Int :=
  if time_to_wait powa_frequency elapsed_ms > 0 then
    some (time_to_wait powa_frequency elapsed_ms)
  else none

/-- Start instant of the next tick, assuming the latch wait returns exactly
at its timeout: the tick began at `t0`, worked for `elapsed_ms`, then slept
for `sleep_duration` (or not at all). -/
def next_tick_start (t0 powa_frequency elapsed_ms : Int) : Int :=
  t0 + elapsed_ms +
    match sleep_duration powa_frequency elapsed_ms with
    | some w => w
    | none => 0

/-- `powa_sighup` (src/powa.c lines 261-265): `ProcessConfigFile` installs
the reloaded frequency value, then `die_on_too_small_frequency()` runs.
Result: the frequency in effect after the handler, and the exit taken by
the handler if any.  The value is never altered (no clamping). -/
def powa_sighup (reloaded_frequency : Int) : Int × Option Nat :=
  (reloaded_frequency, die_on_too_small_frequency reloaded_frequency)

/-! ### Concrete example entries used in witnesses and counterexamples -/

/-- A relation entry with the given oid and all counters and timestamps
zero. -/
def zeroTab (oid : Nat) : PgStat_StatTabEntry :=
  ⟨oid, 0, 0, 0, 0, 0, 0, 0, 0, 0, 0, 0, 0, 0, 0, 0, 0, 0, 0, 0, 0⟩

/-- A concrete relation entry: 30 blocks fetched of which 12 hits; a
never-run vacuum and analyze (timestamp 0) but an auto-vacuum at instant
77 and an auto-analyze at instant 88. -/
def exTab : PgStat_StatTabEntry :=
  ⟨101, 1, 2, 3, 4, 5, 6, 7, 8, 9, 10, 30, 12, 0, 13, 77, 14, 0, 15, 88, 16⟩

/-- A concrete function entry: 9 calls, 4500 ticks total, 1500 ticks
self. -/
def exFunc : PgStat_StatFuncEntry :=
  ⟨55, 9, 4500, 1500⟩

/-! ### Theorems about the scheduler -/

/-- C3: for positive interval `freq` and measured tick duration `d`, the
scheduler waits exactly `freq - d` milliseconds when `d < freq` (so the
next tick starts at `t0 + freq`), and does not sleep at all when
`d ≥ freq` (the next tick starts immediately, at `t0 + d`). -/
theorem scheduler_drift_compensation (freq d t0 : Int)
    (hfreq : 0 < freq) (hd : 0 ≤ d) :
    (d < freq →
      sleep_duration freq d = some (freq - d) ∧
      next_tick_start t0 freq d = t0 + freq) ∧
    (freq ≤ d →
      sleep_duration freq d = none ∧
      next_tick_start t0 freq d = t0 + d) := by
  refine ⟨fun h => ?_, fun h => ?_⟩
  · have hpos : time_to_wait freq d > 0 := by
      unfold time_to_wait; omega
    have hs : sleep_duration freq d = some (freq - d) := by
      unfold sleep_duration
      rw [if_pos hpos]
      unfold time_to_wait
      rfl
    refine ⟨hs, ?_⟩
    unfold next_tick_start
    rw [hs]
    show t0 + d + (freq - d) = t0 + freq
    omega
  · have hneg : ¬ time_to_wait freq d > 0 := by
      unfold time_to_wait; omega
    have hs : sleep_duration freq d = none := by
      unfold sleep_duration
      rw [if_neg hneg]
    refine ⟨hs, ?_⟩
    unfold next_tick_start
    rw [hs]
    show t0 + d + 0 = t0 + d
    omega

/-- Witness for C3 at the spec's two concrete scenarios:
interval 5000 ms with a 1200 ms tick sleeps 3800 ms and the next tick
starts one interval after the previous start; a 6000 ms tick causes no
sleep and the next tick starts immediately. -/
theorem scheduler_drift_compensation_witness :
    (sleep_duration 5000 1200 = some 3800 ∧
      next_tick_start 0 5000 1200 = 5000) ∧
    (sleep_duration 5000 6000 = none ∧
      next_tick_start 0 5000 6000 = 6000) := by
  have h1 :=
    (scheduler_drift_compensation 5000 1200 0 (by decide) (by decide)).1
      (by decide)
  have h2 :=
    (scheduler_drift_compensation 5000 6000 0 (by decide) (by decide)).2
      (by decide)
  exact ⟨by simpa using h1, by simpa using h2⟩

/-- C4: no exit path of the scheduler uses status 0: every startup exit,
every loop-check exit and every reload-handler exit carries a non-zero
code; a negative interval at startup exits with code 1 before the
connection step (which follows `powa_startup_exit` in `powa_main`), and a
negative interval after a reload exits with code 1 at the check at the top
of the next loop iteration. -/
theorem scheduler_never_exits_zero (freq : Int) :
    (∀ c, powa_startup_exit freq = some c → c ≠ 0) ∧
    (∀ c, powa_loop_check freq = some c → c ≠ 0) ∧
    (∀ c, (powa_sighup freq).2 = some c → c ≠ 0) ∧
    (freq < 0 →
      powa_startup_exit freq = some 1 ∧ powa_loop_check freq = some 1) := by
  unfold powa_startup_exit powa_loop_check powa_sighup
    die_on_too_small_frequency min_powa_frequency
  refine ⟨?_, ?_, ?_, ?_⟩ <;> split_ifs <;> simp_all

/-- Witness for C4 at `freq = -1`: both the startup path and the loop
check exit with status 1, which is non-zero. -/
theorem scheduler_never_exits_zero_witness :
    (powa_startup_exit (-1) = some 1 ∧ powa_loop_check (-1) = some 1) ∧
    (1 : Nat) ≠ 0 :=
  ⟨(scheduler_never_exits_zero (-1)).2.2.2 (by decide), by decide⟩

/-- C5: a positive interval below the 5000 ms floor is fatal: the check
exits with status 1 both at startup (`die_on_too_small_frequency` is the
first thing `powa_main` runs) and in the reload handler (`powa_sighup`
re-runs the check right after `ProcessConfigFile`, before any further
tick); the handler leaves the reloaded value in place rather than
clamping it. -/
theorem below_floor_is_fatal (freq : Int)
    (h1 : 0 < freq) (h2 : freq < min_powa_frequency) :
    die_on_too_small_frequency freq = some 1 ∧
    powa_startup_exit freq = some 1 ∧
    powa_sighup freq = (freq, some 1) := by
  have hd : die_on_too_small_frequency freq = some 1 := by
    unfold die_on_too_small_frequency
    rw [if_pos ⟨h1, h2⟩]
  refine ⟨hd, ?_, ?_⟩
  · unfold powa_startup_exit
    rw [hd]
  · unfold powa_sighup
    rw [hd]

/-- Witness for C5 at `freq = 3000` (positive, below the 5000 ms floor):
startup and reload both exit with status 1 and the value is unchanged. -/
theorem below_floor_is_fatal_witness :
    die_on_too_small_frequency 3000 = some 1 ∧
    powa_startup_exit 3000 = some 1 ∧
    powa_sighup 3000 = (3000, some 1) :=
  below_floor_is_fatal 3000 (by decide) (by decide)

/-- C10: `powa.frequency = 0` is not treated as disabled: the floor check
passes (it applies only to positive values), neither negative-value exit
path fires, and for every non-negative tick duration `d` the computed
wait `0 - d` is non-positive, so the loop never sleeps. -/
theorem zero_interval_runs_without_sleep (d : Int) (hd : 0 ≤ d) :
    die_on_too_small_frequency 0 = none ∧
    powa_startup_exit 0 = none ∧
    powa_loop_check 0 = none ∧
    time_to_wait 0 d ≤ 0 ∧
    sleep_duration 0 d = none := by
  refine ⟨by decide, by decide, by decide, ?_, ?_⟩
  · unfold time_to_wait; omega
  · unfold sleep_duration time_to_wait
    rw [if_neg (by omega)]

/-- Witness for C10 at tick duration 7 ms: with a zero interval the wait
is non-positive and no sleep happens. -/
theorem zero_interval_runs_without_sleep_witness :
    powa_startup_exit 0 = none ∧ sleep_duration 0 7 = none :=
  ⟨(zero_interval_runs_without_sleep 7 (by decide)).2.1,
   (zero_interval_runs_without_sleep 7 (by decide)).2.2.2.2⟩

/-! ### Theorems about the extractor -/

/-- C6: when the store records no entry for the requested database
(`pgstat_fetch_stat_dbentry` returns NULL), both SRFs succeed with zero
rows — no error is raised — and the session state is left with
`MyDatabaseId` restored and the snapshot cache cleared. -/
theorem no_entry_yields_empty (ctx : FuncCallContext) (store : StatsStore)
    (dbid : Nat) (s : BackendState)
    (hc : ctx.hasReturnSetInfo = true) (hm : ctx.allowsMaterialize = true)
    (hr : ctx.resultTypeComposite = true)
    (hstore : store dbid = .ok none) :
    powa_stat_user_functions ctx store dbid s =
      .ok ([], ⟨s.myDatabaseId, none⟩) ∧
    powa_stat_all_rel ctx store dbid s =
      .ok ([], ⟨s.myDatabaseId, none⟩) := by
  unfold powa_stat_user_functions powa_stat_all_rel powa_stat_common
  rw [hc, hm, hr, hstore]
  simp

/-- Witness for C6: a store with no entry for database 5, called from a
session attached to database 1 with a stale cached snapshot. -/
theorem no_entry_yields_empty_witness :
    powa_stat_user_functions ⟨true, true, true⟩ (fun _ => .ok none) 5
      ⟨1, some 9⟩ = .ok ([], ⟨1, none⟩) ∧
    powa_stat_all_rel ⟨true, true, true⟩ (fun _ => .ok none) 5
      ⟨1, some 9⟩ = .ok ([], ⟨1, none⟩) :=
  no_entry_yields_empty ⟨true, true, true⟩ (fun _ => .ok none) 5
    ⟨1, some 9⟩ rfl rfl rfl rfl

/-- C9: when any caller-contract check fails (no `ReturnSetInfo`,
materialize mode not allowed, or a non-composite declared result type),
`powa_stat_common` raises one of the three contract errors immediately and
the backend state it propagates is exactly the initial state: no snapshot
invalidation and no `MyDatabaseId` override has happened. -/
theorem contract_violation_leaves_state_untouched (ctx : FuncCallContext)
    (store : StatsStore) (dbid : Nat) (kind : PowaStatKind)
    (s : BackendState)
    (h : ctx.hasReturnSetInfo = false ∨ ctx.allowsMaterialize = false ∨
      ctx.resultTypeComposite = false) :
    ∃ e : PowaError,
      powa_stat_common ctx store dbid kind s = .error (e, s) ∧
      e ≠ .fetchFailed := by
  obtain ⟨a, b, c⟩ := ctx
  rcases h with h | h | h <;> subst h
  · exact ⟨.cannotAcceptSet, by simp [powa_stat_common], by decide⟩
  · cases a
    · exact ⟨.cannotAcceptSet, by simp [powa_stat_common], by decide⟩
    · exact ⟨.materializeNotAllowed, by simp [powa_stat_common], by decide⟩
  · cases a
    · exact ⟨.cannotAcceptSet, by simp [powa_stat_common], by decide⟩
    · cases b
      · exact ⟨.materializeNotAllowed, by simp [powa_stat_common],
          by decide⟩
      · exact ⟨.returnTypeNotRow, by simp [powa_stat_common], by decide⟩

/-- Witness for C9: a caller that forbids materialize mode gets an
immediate error and the session state `⟨3, some 2⟩` is untouched. -/
theorem contract_violation_leaves_state_untouched_witness :
    ∃ e : PowaError,
      powa_stat_common ⟨true, false, true⟩ (fun _ => .ok none) 7 .table
        ⟨3, some 2⟩ = .error (e, ⟨3, some 2⟩) ∧ e ≠ .fetchFailed :=
  contract_violation_leaves_state_untouched ⟨true, false, true⟩
    (fun _ => .ok none) 7 .table ⟨3, some 2⟩ (Or.inr (Or.inl rfl))

/-- C2 (evidence of the divergence): with a store whose fetch for database
42 raises a backend error, the extraction propagates the error while
`MyDatabaseId` is still overridden to 42 instead of restored to the
caller's database 1.  src/powa.c has no cleanup handler (no
`PG_TRY`/`PG_FINALLY`) around lines 350-462: the restore at line 357 and
the final `pgstat_clear_snapshot()` at line 462 only run on the non-error
path, so an error inside `pgstat_fetch_stat_dbentry` leaves the session
scoped to the foreign database. -/
theorem fetch_failure_leaves_dbid_overridden :
    powa_stat_common ⟨true, true, true⟩ (fun _ => .error ()) 42 .table
      ⟨1, some 1⟩ = .error (.fetchFailed, ⟨42, none⟩) ∧
    (⟨42, none⟩ : BackendState).myDatabaseId ≠ 1 :=
  ⟨rfl, by decide⟩

/-- C1 counterexample: database 10's entry records 3 relations but its
function hash pointer is NULL (the collection is absent); contrary to the
claim's "relation rows are produced regardless of whether the function
collection is present", `powa_stat_all_rel` emits 0 rows, not 3, because
src/powa.c line 359 guards both branches of the `switch` on
`dbentry->functions != NULL`. -/
theorem rel_rows_without_function_hash_counterexample :
    powa_stat_all_rel ⟨true, true, true⟩
      (fun _ => .ok (some ⟨some [zeroTab 1, zeroTab 2, zeroTab 3], none⟩))
      10 ⟨7, none⟩ = .ok ([], ⟨7, none⟩) ∧
    ([] : List OutputRow).length ≠ 3 :=
  ⟨rfl, by decide⟩

/-- C1 amended: provided the entry's function hash is present (possibly
empty), `powa_stat_all_rel` emits exactly one row per recorded relation
and `powa_stat_user_functions` exactly one row per tracked function; in
particular 3 relations and 0 tracked functions give 3 rows and 0 rows. -/
theorem stat_row_counts (ctx : FuncCallContext) (store : StatsStore)
    (dbid : Nat) (s : BackendState) (ts : List PgStat_StatTabEntry)
    (fs : List PgStat_StatFuncEntry)
    (hc : ctx.hasReturnSetInfo = true) (hm : ctx.allowsMaterialize = true)
    (hr : ctx.resultTypeComposite = true)
    (hstore : store dbid = .ok (some ⟨some ts, some fs⟩)) :
    powa_stat_all_rel ctx store dbid s =
      .ok (ts.map tabRow, ⟨s.myDatabaseId, none⟩) ∧
    powa_stat_user_functions ctx store dbid s =
      .ok (fs.map funcRow, ⟨s.myDatabaseId, none⟩) ∧
    (ts.map tabRow).length = ts.length ∧
    (fs.map funcRow).length = fs.length := by
  unfold powa_stat_user_functions powa_stat_all_rel powa_stat_common
  rw [hc, hm, hr, hstore]
  simp

/-- Witness for the amended C1 at the spec's concrete scenario: 3 tracked
relations, an empty (but present) function hash — 3 relation rows, 0
function rows. -/
theorem stat_row_counts_witness :
    powa_stat_all_rel ⟨true, true, true⟩
      (fun _ => .ok (some ⟨some [zeroTab 1, zeroTab 2, zeroTab 3], some []⟩))
      10 ⟨7, none⟩ =
      .ok ([tabRow (zeroTab 1), tabRow (zeroTab 2), tabRow (zeroTab 3)],
        ⟨7, none⟩) ∧
    powa_stat_user_functions ⟨true, true, true⟩
      (fun _ => .ok (some ⟨some [zeroTab 1, zeroTab 2, zeroTab 3], some []⟩))
      10 ⟨7, none⟩ = .ok ([], ⟨7, none⟩) := by
  have h := stat_row_counts ⟨true, true, true⟩
    (fun _ => .ok (some ⟨some [zeroTab 1, zeroTab 2, zeroTab 3], some []⟩))
    10 ⟨7, none⟩ [zeroTab 1, zeroTab 2, zeroTab 3] [] rfl rfl rfl rfl
  exact ⟨h.1, h.2.1⟩

/-- C7: in a relation row, each of the four nullable timestamp columns
(13: last vacuum, 15: last auto-vacuum, 17: last analyze, 19: last
auto-analyze) is null exactly when the source timestamp is the zero
sentinel, and otherwise carries the source timestamp unchanged. -/
theorem timestamp_null_iff_zero (t : PgStat_StatTabEntry) :
    ((tabRow t)[13]? = some none ↔ t.vacuum_timestamp = 0) ∧
    (t.vacuum_timestamp ≠ 0 →
      (tabRow t)[13]? = some (some (.timestamptz t.vacuum_timestamp))) ∧
    ((tabRow t)[15]? = some none ↔ t.autovac_vacuum_timestamp = 0) ∧
    (t.autovac_vacuum_timestamp ≠ 0 →
      (tabRow t)[15]? =
        some (some (.timestamptz t.autovac_vacuum_timestamp))) ∧
    ((tabRow t)[17]? = some none ↔ t.analyze_timestamp = 0) ∧
    (t.analyze_timestamp ≠ 0 →
      (tabRow t)[17]? = some (some (.timestamptz t.analyze_timestamp))) ∧
    ((tabRow t)[19]? = some none ↔ t.autovac_analyze_timestamp = 0) ∧
    (t.autovac_analyze_timestamp ≠ 0 →
      (tabRow t)[19]? =
        some (some (.timestamptz t.autovac_analyze_timestamp))) := by
  unfold tabRow
  refine ⟨?_, ?_, ?_, ?_, ?_, ?_, ?_, ?_⟩ <;>
    split_ifs <;> simp_all

/-- Witness for C7 at `exTab`: its vacuum timestamp is the 0 sentinel, so
column 13 is null; its auto-vacuum timestamp is 77, so column 15 carries
77. -/
theorem timestamp_null_iff_zero_witness :
    (tabRow exTab)[13]? = some none ∧
    (tabRow exTab)[15]? = some (some (.timestamptz 77)) := by
  have h := timestamp_null_iff_zero exTab
  exact ⟨h.1.mpr rfl, by simpa [exTab] using h.2.2.2.1 (by decide)⟩

/-- C8: every counter column of an emitted row equals the corresponding
source counter at the moment of fetch, with exactly two transformations:
function total/self time divided by 1000 (columns 2 and 3 of a function
row) and relation column 11 computed as `blocks_fetched - blocks_hit`.
The first two conjuncts tie the emitted rows of both SRFs to the source
entries; the rest spell out every non-timestamp column. -/
theorem counter_round_trip (ctx : FuncCallContext) (store : StatsStore)
    (dbid : Nat) (s : BackendState) (t : PgStat_StatTabEntry)
    (f : PgStat_StatFuncEntry)
    (hc : ctx.hasReturnSetInfo = true) (hm : ctx.allowsMaterialize = true)
    (hr : ctx.resultTypeComposite = true)
    (hstore : store dbid = .ok (some ⟨some [t], some [f]⟩)) :
    (powa_stat_user_functions ctx store dbid s =
      .ok ([funcRow f], ⟨s.myDatabaseId, none⟩) ∧
     powa_stat_all_rel ctx store dbid s =
      .ok ([tabRow t], ⟨s.myDatabaseId, none⟩)) ∧
    ((funcRow f)[0]? = some (some (.oid f.functionid)) ∧
     (funcRow f)[1]? = some (some (.int64 f.f_numcalls)) ∧
     (funcRow f)[2]? =
       some (some (.float8 ((f.f_total_time : Rat) / 1000))) ∧
     (funcRow f)[3]? =
       some (some (.float8 ((f.f_self_time : Rat) / 1000)))) ∧
    ((tabRow t)[0]? = some (some (.oid t.tableid)) ∧
     (tabRow t)[1]? = some (some (.int64 t.numscans)) ∧
     (tabRow t)[2]? = some (some (.int64 t.tuples_returned)) ∧
     (tabRow t)[3]? = some (some (.int64 t.tuples_fetched)) ∧
     (tabRow t)[4]? = some (some (.int64 t.tuples_inserted)) ∧
     (tabRow t)[5]? = some (some (.int64 t.tuples_updated)) ∧
     (tabRow t)[6]? = some (some (.int64 t.tuples_deleted)) ∧
     (tabRow t)[7]? = some (some (.int64 t.tuples_hot_updated)) ∧
     (tabRow t)[8]? = some (some (.int64 t.n_live_tuples)) ∧
     (tabRow t)[9]? = some (some (.int64 t.n_dead_tuples)) ∧
     (tabRow t)[10]? = some (some (.int64 t.changes_since_analyze)) ∧
     (tabRow t)[11]? =
       some (some (.int64 (t.blocks_fetched - t.blocks_hit))) ∧
     (tabRow t)[12]? = some (some (.int64 t.blocks_hit)) ∧
     (tabRow t)[14]? = some (some (.int64 t.vacuum_count)) ∧
     (tabRow t)[16]? = some (some (.int64 t.autovac_vacuum_count)) ∧
     (tabRow t)[18]? = some (some (.int64 t.analyze_count)) ∧
     (tabRow t)[20]? = some (some (.int64 t.autovac_analyze_count))) := by
  refine ⟨?_, ⟨rfl, rfl, rfl, rfl⟩,
    rfl, rfl, rfl, rfl, rfl, rfl, rfl, rfl, rfl, rfl, rfl, rfl, rfl, rfl,
    rfl, rfl, rfl⟩
  unfold powa_stat_user_functions powa_stat_all_rel powa_stat_common
  rw [hc, hm, hr, hstore]
  simp

/-- Witness for C8 at `exTab`/`exFunc`: the extraction emits exactly one
row per entry; relation column 11 is 30 - 12 = 18 and function column 2
is 4500 / 1000 = 4.5 ms. -/
theorem counter_round_trip_witness :
    powa_stat_all_rel ⟨true, true, true⟩
      (fun _ => .ok (some ⟨some [exTab], some [exFunc]⟩)) 10 ⟨7, none⟩ =
      .ok ([tabRow exTab], ⟨7, none⟩) ∧
    (tabRow exTab)[11]? = some (some (.int64 18)) ∧
    (funcRow exFunc)[2]? =
      some (some (.float8 (((4500 : Int) : Rat) / 1000))) := by
  have h := counter_round_trip ⟨true, true, true⟩
    (fun _ => .ok (some ⟨some [exTab], some [exFunc]⟩)) 10 ⟨7, none⟩
    exTab exFunc rfl rfl rfl rfl
  exact ⟨h.1.2, by decide, rfl⟩

end Powa
